import Mathlib

/-!
Verification of the growth/trend/leaderboard/account-management logic of the
frontend-service repository, as a shallow embedding in Lean 4.

Modelling conventions (used throughout):
* JSON integers are `Int`; Python float arithmetic on them (`/`, `*`) is
  modelled exactly with `ℚ`.
* ISO-8601 timestamp strings are ordered lexicographically in the source,
  which for well-formed stamps coincides with chronological order; we model
  timestamps as `Int` seconds and the date portion (`split('T')[0]`) as the
  integer day number `timestamp / 86400`.
* `dict.get(k, default)` on an optional field is modelled as
  `Option.getD`; a field that can be present-or-absent is an `Option`.
* Python's stable `sorted(xs, key=k)` (also with `reverse=True`) is modelled
  by `List.insertionSort` with the corresponding total preorder; both are
  stable sorts for the same preorder, hence produce the same list.
* A Python statement that can raise (`ZeroDivisionError`) is modelled by
  returning `Option`, `none` being the raised exception (the Flask routes
  catch it and answer with an error response).
* File/network I/O and logging are made explicit: every function receives
  the data the corresponding Python code reads as an argument.
-/

namespace Frontend

/-- One history entry `{timestamp, followers}` of a profile, from the JSON
payload consumed by `analytics_service/src/api.py`. -/
structure HistoryPoint where
  timestamp : Int
  followers : Int
deriving DecidableEq

/-- A profile as consumed by `api_growth_stats` (api.py lines 219-223):
`username`, `followers` (`profile.get('followers', 0)` collapsed to the
default-applied value), `history` (`profile.get('history', [])`), and
`follower_change`, kept as an `Option` so that an explicitly supplied value
can be distinguished from an absent one (`profile.get('follower_change', 0)`
is `follower_change.getD 0`). -/
structure GProfile where
  username : String
  followers : Int
  history : List HistoryPoint
  follower_change : Option Int
deriving DecidableEq

/-- Per-account growth record assembled at api.py lines 281-289. -/
structure GrowthAcct where
  username : String
  followers : Int
  daily_growth : Int
  weekly_growth : Int
  monthly_growth : Int
  growth_rate : ℚ
  follower_change : Int
deriving DecidableEq

/-- Response of `/api/stats/growth` (api.py lines 305-311). -/
structure GrowthResponse where
  total_accounts : Nat
  total_followers : Int
  total_weekly_growth : Int
  avg_growth_rate : ℚ
  accounts : List GrowthAcct
deriving DecidableEq

/-- Ordering used by `sorted(history, key=lambda x: x.get('timestamp', ''))`
(api.py line 242). -/
def histRel (a b : HistoryPoint) : Prop := a.timestamp ≤ b.timestamp

instance : DecidableRel histRel := fun a b => inferInstanceAs (Decidable (a.timestamp ≤ b.timestamp))

instance : IsTotal HistoryPoint histRel := ⟨fun a b => Int.le_total a.timestamp b.timestamp⟩

instance : IsTrans HistoryPoint histRel := ⟨fun _ _ _ h1 h2 => le_trans h1 h2⟩

/-- `sorted_history` of api.py line 242: stable sort by timestamp. -/
def sortedHistory (h : List HistoryPoint) : List HistoryPoint := h.insertionSort histRel

/-- Seconds per day; `timedelta(days=n)` is `n * daySeconds`. -/
def daySeconds : Int := 86400

/-- The history points at or after the trailing cutoff: `weekly_points` /
`monthly_points` of api.py lines 258 and 267. -/
def windowPoints (now : Int) (days : Int) (sh : List HistoryPoint) : List HistoryPoint :=
  sh.filter (fun h => now - days * daySeconds ≤ h.timestamp)

/-- Growth over a trailing window, api.py lines 260-263 and 269-272: `0` if
no point lies in the window, else current followers minus the earliest
in-window point. -/
def windowGrowth (now : Int) (days : Int) (followers : Int) (sh : List HistoryPoint) : Int :=
  match windowPoints now days sh with
  | [] => 0
  | q :: _ => followers - q.followers

/-- `latest - previous` of the last two sorted history points,
api.py lines 249-253 (guarded by `len(sorted_history) >= 2`). -/
def lastTwoDelta (sh : List HistoryPoint) : Int :=
  if 2 ≤ sh.length then
    (sh.getLastD ⟨0, 0⟩).followers - (sh.dropLast.getLastD ⟨0, 0⟩).followers
  else 0

/-- The per-profile body of the loop in `api_growth_stats`
(api.py lines 219-293).  Branches, in source order:
* `follower_change != 0` (line 234): use it for daily and weekly growth;
  monthly growth and growth rate stay 0.
* `history and len(history) > 1` (line 240): daily growth from the last two
  sorted points, weekly/monthly growth from the trailing windows, and the
  growth rate (line 275) guarded by `followers > 0 and weekly_growth != 0`;
  the division `weekly_growth / (followers - weekly_growth)` (line 276)
  raises `ZeroDivisionError` when `followers = weekly_growth`, modelled as
  `none`.
* otherwise: all growth figures stay 0. -/
def computeGrowth (now : Int) (p : GProfile) : Option GrowthAcct :=
  let fc0 := p.follower_change.getD 0
  if fc0 ≠ 0 then
    some ⟨p.username, p.followers, fc0, fc0, 0, 0, fc0⟩
  else if 1 < p.history.length then
    let sh := sortedHistory p.history
    let fc := lastTwoDelta sh
    let weekly := windowGrowth now 7 p.followers sh
    let monthly := windowGrowth now 30 p.followers sh
    if 0 < p.followers ∧ weekly ≠ 0 then
      if p.followers - weekly = 0 then none
      else
        some ⟨p.username, p.followers, fc, weekly, monthly,
          ((weekly : ℚ) / ((p.followers - weekly : Int) : ℚ)) * (100 / 7), fc⟩
    else some ⟨p.username, p.followers, fc, weekly, monthly, 0, fc⟩
  else some ⟨p.username, p.followers, 0, 0, 0, 0, fc0⟩

/-- Ordering used by `growth_data.sort(key=..., reverse=True)`
(api.py line 303): descending by growth rate. -/
def rateRel (a b : GrowthAcct) : Prop := b.growth_rate ≤ a.growth_rate

instance : DecidableRel rateRel := fun a b => inferInstanceAs (Decidable (b.growth_rate ≤ a.growth_rate))

/-- `/api/stats/growth` (api.py lines 192-311): empty input yields the empty
success response (lines 199-208); otherwise each profile is processed by
`computeGrowth` (an exception anywhere aborts the request, hence `Option`),
followers and weekly growth are summed, the aggregate rate is computed with
the guard `total_followers - total_growth > 0` (lines 298-300), and the
accounts are sorted by growth rate descending. -/
def api_growth_stats (now : Int) (profiles : List GProfile) : Option GrowthResponse :=
  if profiles.isEmpty then some ⟨0, 0, 0, 0, []⟩
  else do
    let accts ← profiles.mapM (computeGrowth now)
    let totF : Int := (accts.map (fun a => a.followers)).sum
    let totG : Int := (accts.map (fun a => a.weekly_growth)).sum
    let avg : ℚ :=
      if 0 < totF - totG then ((totG : ℚ) / ((totF - totG : Int) : ℚ)) * (100 / 7) else 0
    let sorted := accts.insertionSort rateRel
    some ⟨sorted.length, totF, totG, avg, sorted⟩

/-! ### Trend analysis (`/api/stats/trends`, api.py lines 319-397) -/

/-- One entry of `trend_data` (api.py lines 371-376): a date, the summed
followers, the number of contributing accounts and their average. -/
structure TrendDay where
  date : Int
  total_followers : Int
  account_count : Nat
  average_followers : ℚ
deriving DecidableEq

/-- The `(date, followers)` pairs aggregated at api.py lines 344-362: all
history points of all profiles, restricted to the last 30 days and to
positive follower values, keyed by the day of the timestamp. -/
def trendPoints (now : Int) (profiles : List GProfile) : List (Int × Int) :=
  (((profiles.map (fun p => p.history)).flatten).filter
    (fun h => now - 30 * daySeconds ≤ h.timestamp ∧ 0 < h.followers)).map
    (fun h => (h.timestamp / daySeconds, h.followers))

/-- `sorted(daily_totals.keys())` (api.py line 366): the distinct dates,
ascending. -/
def trendDates (now : Int) (profiles : List GProfile) : List Int :=
  (((trendPoints now profiles).map Prod.fst).dedup).insertionSort (· ≤ ·)

/-- `trend_data` (api.py lines 364-376): for each date, the total and count
accumulated into `daily_totals` / `daily_counts`, and the daily average
`total / count if count > 0 else 0`. -/
def trendData (now : Int) (profiles : List GProfile) : List TrendDay :=
  (trendDates now profiles).map (fun d =>
    let group := (trendPoints now profiles).filter (fun x => x.1 = d)
    let total : Int := (group.map (fun x => x.2)).sum
    let count := group.length
    ⟨d, total, count, if 0 < count then (total : ℚ) / (count : ℚ) else 0⟩)

/-- Trend direction (api.py lines 378-391): `stable` with fewer than 7 trend
points; otherwise the mean of the last 7 daily averages is compared to the
mean of `trend_data[-14:-7]` (empty, i.e. taken equal to the recent mean,
when fewer than 14 points exist) with 5 percent thresholds. -/
def trendDirection (td : List TrendDay) : String :=
  if 7 ≤ td.length then
    let lastWeek := td.drop (td.length - 7)
    let prevWeek := if 14 ≤ td.length then (td.drop (td.length - 14)).take 7 else []
    let lastAvg : ℚ := ((lastWeek.map (fun d => d.average_followers)).sum) / 7
    let prevAvg : ℚ :=
      if prevWeek.isEmpty then lastAvg
      else ((prevWeek.map (fun d => d.average_followers)).sum) / (prevWeek.length : ℚ)
    if prevAvg * (105 / 100) < lastAvg then "increasing"
    else if lastAvg < prevAvg * (95 / 100) then "decreasing"
    else "stable"
  else "stable"

/-! ### Profile resolver and leaderboard (`src/app.py`) -/

/-- Python `str.lower()`, used for the case-insensitive username
comparisons throughout `app.py` and `account_manager.py`. -/
def pyLower (s : String) : String := ⟨s.data.map Char.toLower⟩

/-- A profile dictionary as handled by `app.py` (scraper payload entries,
cache entries and sample data).  `Option` fields are keys that may be
absent.  The `profile_pic_url`/`biography`/`checked_at` aliases and the
image-URL normalisation of `get_profiles_from_scraper` are presentation
plumbing and are not modelled; `bio` stands for the resulting bio field. -/
structure SProfile where
  username : String
  follower_count : Option Int := none
  bio : Option String := none
  profile_img_url : Option String := none
  follower_change : Option Int := none
  timestamp : Option Int := none
  synthetic : Bool := false
deriving DecidableEq

/-- `get_sample_data` (app.py lines 653-678): the fixed static sample set,
timestamped with the current time. -/
def get_sample_data (now : Int) : List SProfile :=
  [⟨"alexisivyedge", some 314000, some "AI-generated model | Digital Creator",
      some "https://via.placeholder.com/150?text=alexisivyedge", none, some now, false⟩,
   ⟨"jodyvollmodel", some 102000, some "Digital fashion | AI persona",
      some "https://via.placeholder.com/150?text=jodyvollmodel", none, some now, false⟩,
   ⟨"aikakittie", some 113000, some "AI beauty | Digital influencer",
      some "https://via.placeholder.com/150?text=aikakittie", none, some now, false⟩]

/-- `load_previous_profile_data` (app.py lines 558-582) builds a dict keyed
by username (later duplicates overwrite earlier ones, falsy usernames are
skipped); looking a username up in that dict is taking the last matching
cache entry. -/
def prevLookup (cache : List SProfile) (u : String) : Option SProfile :=
  if u = "" then none else (cache.filter (fun p => p.username = u)).getLast?

/-- The per-profile change/bio processing of `get_profiles_from_scraper`
(app.py lines 424-520): prefer the entry of `latest_data.json` (exact
username match; `continue` skips the bio default), then the previous profile
cache, defaulting the change to 0; a missing timestamp is set to now. -/
def processProfile (now : Int) (latestData : Option (List SProfile))
    (prevCache : List SProfile) (p : SProfile) : SProfile :=
  let p := { p with timestamp := some (p.timestamp.getD now) }
  let fromLatest : Option Int :=
    match latestData with
    | none => none
    | some hist =>
      match hist.find? (fun q => q.username = p.username) with
      | none => none
      | some q =>
        match q.follower_count with
        | none => none
        | some hc => some (p.follower_count.getD 0 - hc)
  match fromLatest with
  | some change => { p with follower_change := some change }
  | none =>
    let change : Int :=
      match prevLookup prevCache p.username with
      | some prev =>
        match p.follower_count, prev.follower_count with
        | some cur, some pc => cur - pc
        | _, _ => 0
      | none => 0
    let bio := match p.bio with
      | some b => some b
      | none => some "No bio available"
    { p with follower_change := some change, bio := bio }

/-- The synthetic-profile loop of `get_profiles_from_scraper`
(app.py lines 522-541): every local account whose (lowercased) username is
not yet present gets a default profile appended, and is then counted as
present. -/
def addSynthetics (now : Int) : List String → List String → List SProfile
  | [], _ => []
  | u :: us, existing =>
    if u ≠ "" ∧ pyLower u ∉ existing then
      ⟨u, some 1000, some "AI-generated Instagram account (Tracked locally)",
        some "placeholder", some 0, some now, true⟩
        :: addSynthetics now us (pyLower u :: existing)
    else addSynthetics now us existing

/-- `get_profiles_from_scraper` (app.py lines 378-556).  `fetched = none`
stands for any failure of the remote fetch: network error, timeout, non-2xx
status (`raise_for_status`), or a payload without a non-empty `profiles`
field — every such path lands in the `except` clause, which returns the
static sample set (lines 554-556).  (An empty fetched list likewise raises
`"No profiles returned"` and ends in the sample set.)  On success the
profiles are filtered to the locally tracked accounts, each is processed for
follower change, and synthetic profiles are appended for local accounts that
the scraper did not report. -/
def get_profiles_from_scraper (now : Int) (fetched : Option (List SProfile))
    (localAccounts : List String) (latestData : Option (List SProfile))
    (prevCache : List SProfile) : List SProfile :=
  match fetched with
  | none => get_sample_data now
  | some ps =>
    if ps.isEmpty then get_sample_data now
    else
      let localLower := localAccounts.map pyLower
      let filtered := ps.filter (fun p => pyLower p.username ∈ localLower)
      let processed := filtered.map (processProfile now latestData prevCache)
      let existing := processed.map (fun p => pyLower p.username)
      processed ++ addSynthetics now localAccounts existing

/-- Sort key of the leaderboard, `x.get('follower_count', 0)`
(app.py line 749). -/
def lbKey (p : SProfile) : Int := p.follower_count.getD 0

/-- Ordering of `sorted(data, key=..., reverse=True)` (app.py line 749):
descending by follower count. -/
def lbRel (a b : SProfile) : Prop := lbKey b ≤ lbKey a

instance : DecidableRel lbRel := fun a b => inferInstanceAs (Decidable (lbKey b ≤ lbKey a))

instance : IsTotal SProfile lbRel := ⟨fun a b => Int.le_total (lbKey b) (lbKey a)⟩

instance : IsTrans SProfile lbRel := ⟨fun _ _ _ h1 h2 => le_trans h2 h1⟩

/-- One leaderboard entry: the 1-based rank assigned at app.py line 753,
the profile, and the normalised bio (app.py lines 772-775). -/
structure RankedItem where
  rank : Nat
  profile : SProfile
  bio : String
deriving DecidableEq

/-- The `for i, item in enumerate(data): item['rank'] = i + 1` loop of
app.py lines 752-775, starting from rank `i`. -/
def addRanks (i : Nat) : List SProfile → List RankedItem
  | [] => []
  | p :: ps => ⟨i, p, p.bio.getD "No bio available"⟩ :: addRanks (i + 1) ps

/-- `get_leaderboard` (app.py lines 738-801): drop profiles whose
`follower_count` is `None`/absent (line 745), stable-sort descending by
follower count (line 749), then assign ranks 1, 2, … (lines 752-753). -/
def get_leaderboard (data : List SProfile) : List RankedItem :=
  let kept := data.filter (fun p => p.follower_count.isSome)
  addRanks 1 (kept.insertionSort lbRel)

/-! ### Account manager (`src/account_manager.py`, `src/repository.py`) -/

/-- A tracked account entry (account_manager.py lines 168-172). -/
structure TrackedAccount where
  username : String
  submitter : String
  approved_at : Int
deriving DecidableEq

/-- A pending account entry (account_manager.py lines 126-130). -/
structure PendingAccount where
  username : String
  submitter : String
  submitted_at : Int
deriving DecidableEq

/-- The two JSON files the `AccountManager` reads and writes:
`accounts.json` and `pending_accounts.json`.  File writes are modelled as
always succeeding. -/
structure AMState where
  accounts : List TrackedAccount
  pending : List PendingAccount
deriving DecidableEq

/-- `username[1:]` after a leading `@` (account_manager.py lines 107-108). -/
def stripAt (s : String) : String :=
  match s.data with
  | '@' :: rest => ⟨rest⟩
  | _ => s

/-- `AccountManager.submit_account` (account_manager.py lines 101-138):
empty usernames are rejected; the `@` is stripped; the tracked then the
pending list are scanned with `.lower()` comparisons; otherwise the account
is appended to the pending list with the username as given. -/
def submit_account (st : AMState) (username submitter : String) (now : Int) :
    (Bool × String) × AMState :=
  if username = "" then ((false, "Username is required"), st)
  else
    let u := stripAt username
    if st.accounts.any (fun a => pyLower a.username = pyLower u) then
      ((false, "Account @" ++ u ++ " is already being tracked"), st)
    else if st.pending.any (fun a => pyLower a.username = pyLower u) then
      ((false, "Account @" ++ u ++ " is already pending approval"), st)
    else
      ((true, "Account @" ++ u ++ " has been submitted for review"),
        { st with pending := st.pending ++ [⟨u, submitter, now⟩] })

/-- `AccountManager.reject_account` (account_manager.py lines 182-204):
delete the first pending entry whose lowercased username matches; if none
matches, return failure without saving. -/
def reject_account (st : AMState) (username : String) : (Bool × String) × AMState :=
  if st.pending.any (fun a => pyLower a.username = pyLower username) then
    ((true, "Account @" ++ username ++ " has been rejected"),
      { st with pending := st.pending.eraseP (fun a => pyLower a.username = pyLower username) })
  else ((false, "Account @" ++ username ++ " is not in the pending list"), st)

/-- `AccountManager.remove_account` (account_manager.py lines 206-228):
delete the first tracked entry whose lowercased username matches; if none
matches, return failure without saving. -/
def remove_account (st : AMState) (username : String) : (Bool × String) × AMState :=
  if st.accounts.any (fun a => pyLower a.username = pyLower username) then
    ((true, "Account @" ++ username ++ " has been removed from tracking"),
      { st with accounts := st.accounts.eraseP (fun a => pyLower a.username = pyLower username) })
  else ((false, "Account @" ++ username ++ " is not in the tracked accounts list"), st)

/-- `repository.create_pending_account`, file-fallback path
(repository.py lines 372-398): the duplicate check at lines 381-383 compares
usernames with plain `==` (case-sensitive, pending list only). -/
def create_pending_account (pending : List PendingAccount) (username submitter : String)
    (now : Int) : (Bool × String) × List PendingAccount :=
  if pending.any (fun a => a.username = username) then
    ((false, "This account is already pending approval"), pending)
  else
    ((true, "Account submitted successfully"), pending ++ [⟨username, submitter, now⟩])

/-! ### Concrete data for the individual claims -/

/-- The profile of claim C8's scenario: 10000 followers, history points 8
days ago (1000), 6 days ago (9500), 1 day ago (9800) and now (10000),
evaluated at `now = 0`. -/
def c8Profile : GProfile :=
  ⟨"a", 10000, [⟨-691200, 1000⟩, ⟨-518400, 9500⟩, ⟨-86400, 9800⟩, ⟨0, 10000⟩], none⟩

/-- A profile on which the growth-rate division blows up: 100 followers and
an in-window earliest history point with 0 followers, so that
`weekly_growth = followers`. -/
def c1Profile : GProfile := ⟨"c", 100, [⟨-86400, 0⟩, ⟨0, 100⟩], none⟩

/-- A profile whose 7-day window contains exactly one history point. -/
def c2Profile : GProfile := ⟨"b", 10000, [⟨-691200, 1000⟩, ⟨-86400, 9800⟩], none⟩

/-- A profile carrying an explicit `follower_change` of 0 together with a
history whose last two points differ by 50. -/
def c3Profile : GProfile := ⟨"d", 150, [⟨-86400, 100⟩, ⟨0, 150⟩], some 0⟩

/-- A profile whose 7-day window content depends on the evaluation time:
both points lie within 7 days of `now = 259200` (day 3) but none within
7 days of `now = 864000` (day 10). -/
def c9Profile : GProfile := ⟨"u", 10000, [⟨0, 9000⟩, ⟨172800, 9800⟩], none⟩

/-! ### C8 -/

/-- C8: on the scenario profile (10000 followers; history 8d:1000, 6d:9500,
1d:9800, now:10000) the code computes `weekly_growth = 10000 - 9500 = 500`
(current minus the earliest point inside the 7-day cutoff) and
`growth_rate = (500/9500)·(100/7) ≈ 0.75` percent per day. -/
theorem c8_scenario :
    (computeGrowth 0 c8Profile).map (fun r => r.weekly_growth) = some 500 ∧
    (computeGrowth 0 c8Profile).map (fun r => r.growth_rate)
      = some ((500 : ℚ) / 9500 * (100 / 7)) ∧
    |(500 : ℚ) / 9500 * (100 / 7) - 3 / 4| < 1 / 100 := by
  refine ⟨rfl, ?_, by rw [abs_sub_lt_iff]; norm_num⟩
  have h : (computeGrowth 0 c8Profile).map (fun r => r.growth_rate)
      = some (((500 : Int) : ℚ) / (((10000 - 500 : Int)) : ℚ) * (100 / 7)) := rfl
  rw [h]
  norm_num

/-! ### C9 -/

/-- C9 counterexample: the growth computation reads the wall clock
(`datetime.now()` at api.py lines 257 and 266), so two invocations with the
identical profile input give different records when evaluated at different
times: at `now = 259200` the weekly growth is 1000, at `now = 864000` it is
0, hence the results differ. -/
theorem c9_counterexample :
    (computeGrowth 259200 c9Profile).map (fun r => r.weekly_growth) = some 1000 ∧
    (computeGrowth 864000 c9Profile).map (fun r => r.weekly_growth) = some 0 ∧
    computeGrowth 259200 c9Profile ≠ computeGrowth 864000 c9Profile := by
  refine ⟨rfl, rfl, fun h => ?_⟩
  have h2 := congrArg (fun o => Option.map (fun r : GrowthAcct => r.weekly_growth) o) h
  have h3 : (some (1000 : Int)) = some (0 : Int) := h2
  simp at h3

/-- C9 amended: the growth computation is a pure function of the profile
input together with the evaluation time — two invocations with identical
profile and identical current time produce identical records (the current
time is an additional hidden input, contrary to the original claim). -/
theorem c9_deterministic (p₁ p₂ : GProfile) (n₁ n₂ : Int)
    (hp : p₁ = p₂) (hn : n₁ = n₂) :
    computeGrowth n₁ p₁ = computeGrowth n₂ p₂ ∧
    api_growth_stats n₁ [p₁] = api_growth_stats n₂ [p₂] := by
  subst hp; subst hn; exact ⟨rfl, rfl⟩

/-- C9 witness: the determinism theorem instantiated at the scenario
profile. -/
theorem c9_deterministic_witness :
    computeGrowth 0 c8Profile = computeGrowth 0 c8Profile ∧
    api_growth_stats 0 [c8Profile] = api_growth_stats 0 [c8Profile] :=
  c9_deterministic c8Profile c8Profile 0 0 rfl rfl

/-! ### C3 -/

/-- C3 counterexample: a profile that explicitly carries
`follower_change = 0` does not have that value used directly — the guard at
api.py line 234 is `follower_change != 0`, so the computation falls through
to the history branch and produces `daily_growth = 50`. -/
theorem c3_counterexample :
    c3Profile.follower_change = some 0 ∧
    (computeGrowth 0 c3Profile).map (fun r => r.daily_growth) = some 50 ∧
    (50 : Int) ≠ 0 := by
  exact ⟨rfl, rfl, by decide⟩

/-- C3 amended: a profile carrying a NON-ZERO explicit `follower_change`
has that value used directly as both daily and weekly growth (monthly
growth and growth rate stay 0), regardless of any history; an explicit
value of 0 is indistinguishable from an absent one and triggers the
history-based computation. -/
theorem c3_follower_change (p : GProfile) (now : Int)
    (hfc : p.follower_change.getD 0 ≠ 0) :
    computeGrowth now p =
      some ⟨p.username, p.followers, p.follower_change.getD 0,
        p.follower_change.getD 0, 0, 0, p.follower_change.getD 0⟩ ∧
    computeGrowth now { p with follower_change := some 0 }
      = computeGrowth now { p with follower_change := none } := by
  constructor
  · unfold computeGrowth
    rw [if_pos hfc]
  · rfl

/-- C3 witness: the amended theorem applied to a profile with explicit
`follower_change = 5` and a conflicting history. -/
theorem c3_follower_change_witness :
    computeGrowth 0 (⟨"w", 10, [⟨-86400, 1⟩, ⟨0, 10⟩], some 5⟩ : GProfile)
      = some ⟨"w", 10, 5, 5, 0, 0, 5⟩ :=
  (c3_follower_change ⟨"w", 10, [⟨-86400, 1⟩, ⟨0, 10⟩], some 5⟩ 0 (by decide)).1

/-! ### C10 -/

/-- C10: `reject_account` on a username with no case-insensitive match in
the pending list returns `success = false` and leaves the state (both the
pending and the tracked list) unchanged; likewise `remove_account` for a
username with no match in the tracked list. -/
theorem c10_not_found_no_write (st : AMState) (u : String) :
    (st.pending.any (fun a => pyLower a.username = pyLower u) = false →
      (reject_account st u).1.1 = false ∧ (reject_account st u).2 = st) ∧
    (st.accounts.any (fun a => pyLower a.username = pyLower u) = false →
      (remove_account st u).1.1 = false ∧ (remove_account st u).2 = st) := by
  constructor
  · intro h
    rw [reject_account, if_neg (by simp [h])]
    exact ⟨rfl, rfl⟩
  · intro h
    rw [remove_account, if_neg (by simp [h])]
    exact ⟨rfl, rfl⟩

/-- C10 witness: rejecting and removing the absent username `zzz` on a
concrete non-empty state changes nothing. -/
theorem c10_not_found_no_write_witness :
    ((reject_account ⟨[⟨"Kept", "s", 0⟩], [⟨"Pend", "s", 0⟩]⟩ "zzz").1.1 = false ∧
      (reject_account ⟨[⟨"Kept", "s", 0⟩], [⟨"Pend", "s", 0⟩]⟩ "zzz").2
        = ⟨[⟨"Kept", "s", 0⟩], [⟨"Pend", "s", 0⟩]⟩) ∧
    ((remove_account ⟨[⟨"Kept", "s", 0⟩], [⟨"Pend", "s", 0⟩]⟩ "zzz").1.1 = false ∧
      (remove_account ⟨[⟨"Kept", "s", 0⟩], [⟨"Pend", "s", 0⟩]⟩ "zzz").2
        = ⟨[⟨"Kept", "s", 0⟩], [⟨"Pend", "s", 0⟩]⟩) :=
  ⟨(c10_not_found_no_write ⟨[⟨"Kept", "s", 0⟩], [⟨"Pend", "s", 0⟩]⟩ "zzz").1 (by decide),
   (c10_not_found_no_write ⟨[⟨"Kept", "s", 0⟩], [⟨"Pend", "s", 0⟩]⟩ "zzz").2 (by decide)⟩

/-! ### C5 -/

/-- C5 counterexample: with the remote fetch failing, the resolver returns
the static sample set even though the durable fallback tier (the previous
profile cache, here holding one profile) is non-empty — refuting that the
sample set is returned only when every other tier is empty. -/
theorem c5_counterexample :
    get_profiles_from_scraper 0 none ["alice"]
        (some [⟨"alice", some 9, none, none, none, some 0, false⟩])
        [⟨"alice", some 7, none, none, none, some 0, false⟩]
      = get_sample_data 0 ∧
    ([⟨"alice", some 7, none, none, none, some 0, false⟩] : List SProfile) ≠ [] := by
  exact ⟨rfl, by simp⟩

/-- C5 amended: whenever the remote profile fetch fails (network error,
timeout, non-200 response, or an empty/absent `profiles` payload),
`get_profiles_from_scraper` returns the fixed static sample set
unconditionally — regardless of the contents of the previous-profile cache
or `latest_data.json` — and that sample set is non-empty (length 3). -/
theorem c5_failure_returns_sample (now : Int) (la : List String)
    (latest : Option (List SProfile)) (prev : List SProfile) :
    get_profiles_from_scraper now none la latest prev = get_sample_data now ∧
    get_profiles_from_scraper now (some []) la latest prev = get_sample_data now ∧
    (get_sample_data now).length = 3 ∧ get_sample_data now ≠ [] := by
  exact ⟨rfl, rfl, rfl, by simp [get_sample_data]⟩

/-! ### C7 -/

/-- C7 counterexample: `repository.create_pending_account` (file fallback)
accepts the submission of `test` although `Test` — the same username up to
letter case — is already pending, because its duplicate check uses plain
string equality; and `AccountManager.submit_account` stores the username
`Alice` as given, not lowercased. -/
theorem c7_counterexample :
    (create_pending_account [⟨"Test", "s", 0⟩] "test" "s2" 1).1.1 = true ∧
    pyLower "Test" = pyLower "test" ∧ "Test" ≠ "test" ∧
    ((submit_account ⟨[], []⟩ "Alice" "s" 0).2.pending.map (fun a => a.username))
      = ["Alice"] ∧
    "Alice" ≠ pyLower "Alice" := by
  exact ⟨rfl, by decide, by decide, rfl, by decide⟩

/-- C7 amended: `AccountManager.submit_account` compares usernames
case-insensitively against both the tracked and the pending list and fails
with `success = false` (leaving the state unchanged) whenever the
`@`-stripped username matches either, but on success it stores the username
with its letter case preserved; `repository.create_pending_account`'s
file fallback checks with exact (case-sensitive) equality and only against
the pending list. -/
theorem c7_case_insensitivity (st : AMState) (u s : String) (now : Int)
    (hne : u ≠ "") :
    ((st.accounts.any (fun a => pyLower a.username = pyLower (stripAt u)) = true ∨
      st.pending.any (fun a => pyLower a.username = pyLower (stripAt u)) = true) →
      (submit_account st u s now).1.1 = false ∧ (submit_account st u s now).2 = st) ∧
    (st.accounts.any (fun a => pyLower a.username = pyLower (stripAt u)) = false →
      st.pending.any (fun a => pyLower a.username = pyLower (stripAt u)) = false →
      submit_account st u s now =
        ((true, "Account @" ++ stripAt u ++ " has been submitted for review"),
          { st with pending := st.pending ++ [⟨stripAt u, s, now⟩] })) ∧
    (∀ (pending : List PendingAccount) (v s2 : String) (t : Int),
      (pending.any (fun a => a.username = v) = true →
        create_pending_account pending v s2 t
          = ((false, "This account is already pending approval"), pending)) ∧
      (pending.any (fun a => a.username = v) = false →
        create_pending_account pending v s2 t
          = ((true, "Account submitted successfully"), pending ++ [⟨v, s2, t⟩]))) := by
  refine ⟨?_, ?_, ?_⟩
  · intro h
    rw [submit_account, if_neg hne]
    rcases h with h | h
    · rw [if_pos (by simp [h])]
      exact ⟨rfl, rfl⟩
    · by_cases ha : st.accounts.any (fun a => pyLower a.username = pyLower (stripAt u)) = true
      · rw [if_pos (by simp [ha])]
        exact ⟨rfl, rfl⟩
      · rw [if_neg (by simp_all), if_pos (by simp [h])]
        exact ⟨rfl, rfl⟩
  · intro ha hp
    rw [submit_account, if_neg hne, if_neg (by simp [ha]), if_neg (by simp [hp])]
  · intro pending v s2 t
    constructor
    · intro h
      rw [create_pending_account, if_pos (by simp_all)]
    · intro h
      rw [create_pending_account, if_neg (by simp [h])]

/-- C7 witness: on a state tracking `Kept` with `Pend` pending, submitting
`@PEND` (a case variant of the pending entry) fails and changes nothing,
submitting `new` succeeds and stores `new` verbatim, and
`create_pending_account` rejects only the exact duplicate `Pend2`. -/
theorem c7_case_insensitivity_witness :
    ((submit_account ⟨[⟨"Kept", "s", 0⟩], [⟨"Pend", "s", 0⟩]⟩ "@PEND" "x" 1).1.1 = false ∧
      (submit_account ⟨[⟨"Kept", "s", 0⟩], [⟨"Pend", "s", 0⟩]⟩ "@PEND" "x" 1).2
        = ⟨[⟨"Kept", "s", 0⟩], [⟨"Pend", "s", 0⟩]⟩) ∧
    submit_account ⟨[⟨"Kept", "s", 0⟩], [⟨"Pend", "s", 0⟩]⟩ "new" "x" 1
      = ((true, "Account @" ++ "new" ++ " has been submitted for review"),
          ⟨[⟨"Kept", "s", 0⟩], [⟨"Pend", "s", 0⟩, ⟨"new", "x", 1⟩]⟩) ∧
    create_pending_account [⟨"Pend2", "s", 0⟩] "Pend2" "x" 1
      = ((false, "This account is already pending approval"), [⟨"Pend2", "s", 0⟩]) :=
  ⟨(c7_case_insensitivity ⟨[⟨"Kept", "s", 0⟩], [⟨"Pend", "s", 0⟩]⟩ "@PEND" "x" 1
      (by decide)).1 (Or.inr (by decide)),
   (c7_case_insensitivity ⟨[⟨"Kept", "s", 0⟩], [⟨"Pend", "s", 0⟩]⟩ "new" "x" 1
      (by decide)).2.1 (by decide) (by decide),
   ((c7_case_insensitivity ⟨[], []⟩ "q" "x" 1 (by decide)).2.2
      [⟨"Pend2", "s", 0⟩] "Pend2" "x" 1).1 (by decide)⟩

/-! ### C1 -/

/-- C1 counterexample: a profile with 100 followers and an in-window
earliest history point of 0 followers has `weekly_growth = 100 = followers`,
so `followers - weekly_growth = 0 ≤ 0`; the claim demands `growth_rate = 0`
with no error, but the code's guard (`followers > 0 and weekly_growth != 0`,
api.py line 275) admits the division and it raises `ZeroDivisionError`
(modelled as `none`, surfaced as an error response). -/
theorem c1_counterexample :
    windowGrowth 0 7 (100 : Int) (sortedHistory c1Profile.history) = 100 ∧
    c1Profile.followers = 100 ∧
    computeGrowth 0 c1Profile = none := by
  exact ⟨rfl, rfl, rfl⟩

/-- C1 amended: in the history branch, `growth_rate` is 0 whenever
`weekly_growth = 0` or `followers ≤ 0`; when `followers > 0`,
`weekly_growth ≠ 0` and `followers ≠ weekly_growth` it equals
`(weekly_growth / (followers − weekly_growth)) · (100/7)`; but when
`followers > 0`, `weekly_growth ≠ 0` and `followers = weekly_growth` the
computation raises a `ZeroDivisionError` instead of yielding 0.  The
aggregate `avg_growth_rate` does follow the claimed rule: it is the formula
on the summed totals when `total_followers − total_weekly_growth > 0` and 0
otherwise, never raising. -/
theorem c1_growth_rate (p : GProfile) (now : Int) (profiles : List GProfile)
    (hfc : p.follower_change.getD 0 = 0) (hlen : 1 < p.history.length) :
    ((windowGrowth now 7 p.followers (sortedHistory p.history) = 0 ∨ p.followers ≤ 0) →
      ∃ r, computeGrowth now p = some r ∧ r.growth_rate = 0) ∧
    (0 < p.followers →
      windowGrowth now 7 p.followers (sortedHistory p.history) ≠ 0 →
      p.followers ≠ windowGrowth now 7 p.followers (sortedHistory p.history) →
      ∃ r, computeGrowth now p = some r ∧
        r.growth_rate =
          ((windowGrowth now 7 p.followers (sortedHistory p.history) : ℚ) /
            ((p.followers - windowGrowth now 7 p.followers (sortedHistory p.history) : Int) : ℚ))
            * (100 / 7)) ∧
    (0 < p.followers →
      windowGrowth now 7 p.followers (sortedHistory p.history) ≠ 0 →
      p.followers = windowGrowth now 7 p.followers (sortedHistory p.history) →
      computeGrowth now p = none) ∧
    (∀ resp, api_growth_stats now profiles = some resp →
      resp.avg_growth_rate =
        if 0 < resp.total_followers - resp.total_weekly_growth then
          ((resp.total_weekly_growth : ℚ) /
            ((resp.total_followers - resp.total_weekly_growth : Int) : ℚ)) * (100 / 7)
        else 0) := by
  have hbranch : computeGrowth now p =
      (if 0 < p.followers ∧ windowGrowth now 7 p.followers (sortedHistory p.history) ≠ 0 then
        if p.followers - windowGrowth now 7 p.followers (sortedHistory p.history) = 0 then none
        else
          some ⟨p.username, p.followers, lastTwoDelta (sortedHistory p.history),
            windowGrowth now 7 p.followers (sortedHistory p.history),
            windowGrowth now 30 p.followers (sortedHistory p.history),
            ((windowGrowth now 7 p.followers (sortedHistory p.history) : ℚ) /
              ((p.followers - windowGrowth now 7 p.followers (sortedHistory p.history) : Int) : ℚ))
              * (100 / 7), lastTwoDelta (sortedHistory p.history)⟩
      else
        some ⟨p.username, p.followers, lastTwoDelta (sortedHistory p.history),
          windowGrowth now 7 p.followers (sortedHistory p.history),
          windowGrowth now 30 p.followers (sortedHistory p.history), 0,
          lastTwoDelta (sortedHistory p.history)⟩) := by
    unfold computeGrowth
    rw [hfc, if_neg (by simp), if_pos hlen]
  refine ⟨?_, ?_, ?_, ?_⟩
  · intro h
    rw [hbranch, if_neg ?_]
    · exact ⟨_, rfl, rfl⟩
    · rcases h with h | h
      · exact fun hc => hc.2 h
      · exact fun hc => absurd hc.1 (not_lt.mpr h)
  · intro h1 h2 h3
    rw [hbranch, if_pos ⟨h1, h2⟩, if_neg (fun hc => h3 (by linarith [sub_eq_zero.mp hc]))]
    exact ⟨_, rfl, rfl⟩
  · intro h1 h2 h3
    rw [hbranch, if_pos ⟨h1, h2⟩, if_pos (by rw [← h3]; ring)]
  · intro resp hresp
    rw [api_growth_stats] at hresp
    by_cases hemp : profiles.isEmpty
    · rw [if_pos hemp] at hresp
      cases hresp
      norm_num
    · rw [if_neg hemp] at hresp
      cases hmap : profiles.mapM (computeGrowth now) with
      | none => rw [hmap] at hresp; cases hresp
      | some accts =>
        rw [hmap] at hresp
        simp only [Option.bind_some, Option.some.injEq] at hresp
        cases hresp
        rfl

/-- C1 witness: the amended theorem instantiated at a profile with 100
followers whose weekly growth is 40 (rate `(40/60)·(100/7)`), and at the
singleton aggregate over it. -/
theorem c1_growth_rate_witness :
    (∃ r, computeGrowth 0 (⟨"w", 100, [⟨-86400, 60⟩, ⟨0, 100⟩], none⟩ : GProfile) = some r ∧
      r.growth_rate = ((40 : ℚ) / ((60 : Int) : ℚ)) * (100 / 7)) ∧
    (∀ resp, api_growth_stats 0 [(⟨"w", 100, [⟨-86400, 60⟩, ⟨0, 100⟩], none⟩ : GProfile)]
        = some resp →
      resp.avg_growth_rate =
        if 0 < resp.total_followers - resp.total_weekly_growth then
          ((resp.total_weekly_growth : ℚ) /
            ((resp.total_followers - resp.total_weekly_growth : Int) : ℚ)) * (100 / 7)
        else 0) :=
  ⟨(c1_growth_rate ⟨"w", 100, [⟨-86400, 60⟩, ⟨0, 100⟩], none⟩ 0 [] rfl (by decide)).2.1
      (by decide) (by decide) (by decide),
   (c1_growth_rate ⟨"w", 100, [⟨-86400, 60⟩, ⟨0, 100⟩], none⟩ 0
      [⟨"w", 100, [⟨-86400, 60⟩, ⟨0, 100⟩], none⟩] rfl (by decide)).2.2.2⟩

/-! ### C2 -/

/-- C2 counterexample: a profile whose 7-day window contains exactly one
history point — fewer than 2, so the claim demands `weekly_growth = 0` —
yet the code (guard `len(weekly_points) > 0`, api.py line 260) computes
`weekly_growth = 10000 - 9800 = 200`. -/
theorem c2_counterexample :
    (windowPoints 0 7 (sortedHistory c2Profile.history)).length = 1 ∧
    (computeGrowth 0 c2Profile).map (fun r => r.weekly_growth) = some 200 ∧
    (200 : Int) ≠ 0 := by
  exact ⟨rfl, rfl, by decide⟩

/-- C2 amended: for a profile computed from history (no usable
`follower_change`, at least two history points in total), a window's growth
figure is 0 exactly when NO history point lies at or after the cutoff;
with one or more in-window points it equals the current follower count
minus the earliest such point, and the window extraction itself never
raises (only the later growth-rate division can). -/
theorem c2_window_growth (p : GProfile) (now : Int)
    (hfc : p.follower_change.getD 0 = 0) (hlen : 1 < p.history.length) :
    (windowPoints now 7 (sortedHistory p.history) = [] →
      windowGrowth now 7 p.followers (sortedHistory p.history) = 0) ∧
    (∀ q qs, windowPoints now 7 (sortedHistory p.history) = q :: qs →
      windowGrowth now 7 p.followers (sortedHistory p.history) = p.followers - q.followers) ∧
    (windowPoints now 30 (sortedHistory p.history) = [] →
      windowGrowth now 30 p.followers (sortedHistory p.history) = 0) ∧
    (∀ q qs, windowPoints now 30 (sortedHistory p.history) = q :: qs →
      windowGrowth now 30 p.followers (sortedHistory p.history) = p.followers - q.followers) ∧
    (∀ r, computeGrowth now p = some r →
      r.weekly_growth = windowGrowth now 7 p.followers (sortedHistory p.history) ∧
      r.monthly_growth = windowGrowth now 30 p.followers (sortedHistory p.history)) := by
  refine ⟨?_, ?_, ?_, ?_, ?_⟩
  · intro h; rw [windowGrowth, h]
  · intro q qs h; rw [windowGrowth, h]
  · intro h; rw [windowGrowth, h]
  · intro q qs h; rw [windowGrowth, h]
  · intro r hr
    unfold computeGrowth at hr
    rw [hfc, if_neg (by simp), if_pos hlen] at hr
    by_cases hg : 0 < p.followers ∧ windowGrowth now 7 p.followers (sortedHistory p.history) ≠ 0
    · rw [if_pos hg] at hr
      by_cases hz : p.followers - windowGrowth now 7 p.followers (sortedHistory p.history) = 0
      · rw [if_pos hz] at hr; cases hr
      · rw [if_neg hz] at hr
        cases hr
        exact ⟨rfl, rfl⟩
    · rw [if_neg hg] at hr
      cases hr
      exact ⟨rfl, rfl⟩

/-- C2 witness: the amended theorem applied to the C8 scenario profile,
whose 7-day window starts at the 9500-follower point. -/
theorem c2_window_growth_witness :
    windowGrowth 0 7 (10000 : Int) (sortedHistory c8Profile.history)
      = (10000 : Int) - 9500 :=
  (c2_window_growth c8Profile 0 rfl (by decide)).2.1 ⟨-518400, 9500⟩
    [⟨-86400, 9800⟩, ⟨0, 10000⟩] rfl

/-! ### Helper lemmas: stability of the modelled sort, rank assignment -/

/-- Inserting an element that the filter rejects does not change the
filtered image. -/
theorem filter_orderedInsert_neg {α : Type} (r : α → α → Prop) [DecidableRel r]
    (p : α → Bool) (x : α) (hx : p x = false) :
    ∀ l : List α, ((l.orderedInsert r x).filter p) = l.filter p := by
  intro l
  induction l with
  | nil => simp [List.orderedInsert, hx]
  | cons b bs ih =>
    by_cases hr : r x b
    · simp [List.orderedInsert, if_pos hr, List.filter_cons, hx]
    · simp only [List.orderedInsert, if_neg hr, List.filter_cons]
      rw [ih]

/-- Inserting an element that the filter keeps, and that is `r`-below every
kept element, prepends it to the filtered image. -/
theorem filter_orderedInsert_pos {α : Type} (r : α → α → Prop) [DecidableRel r]
    (p : α → Bool) (x : α) (hx : p x = true) (hall : ∀ y, p y = true → r x y) :
    ∀ l : List α, ((l.orderedInsert r x).filter p) = x :: l.filter p := by
  intro l
  induction l with
  | nil => simp [List.orderedInsert, hx]
  | cons b bs ih =>
    by_cases hr : r x b
    · simp [List.orderedInsert, if_pos hr, List.filter_cons, hx]
    · have hpb : p b = false := by
        cases hb : p b with
        | false => rfl
        | true => exact absurd (hall b hb) hr
      simp only [List.orderedInsert, if_neg hr, List.filter_cons, hpb]
      simp only [Bool.false_eq_true, if_neg]
      rw [ih]
      simp [List.filter_cons, hpb]

/-- Stability of `insertionSort`, in filter form: if all elements kept by
`p` are mutually `r`-related (e.g. they share the sort key), sorting does
not change the `p`-filtered subsequence. -/
theorem filter_insertionSort {α : Type} (r : α → α → Prop) [DecidableRel r]
    (p : α → Bool) (hall : ∀ a b, p a = true → p b = true → r a b) :
    ∀ l : List α, ((l.insertionSort r).filter p) = l.filter p := by
  intro l
  induction l with
  | nil => rfl
  | cons a l ih =>
    show ((l.insertionSort r).orderedInsert r a).filter p = (a :: l).filter p
    cases hpa : p a with
    | true =>
      rw [filter_orderedInsert_pos r p a hpa (fun y hy => hall a y hpa hy), ih,
        List.filter_cons, if_pos (by simp [hpa])]
    | false =>
      rw [filter_orderedInsert_neg r p a hpa, ih, List.filter_cons]
      simp [hpa]

/-- `addRanks` leaves the underlying profiles unchanged. -/
theorem addRanks_map_profile : ∀ (i : Nat) (l : List SProfile),
    (addRanks i l).map (fun e => e.profile) = l := by
  intro i l
  induction l generalizing i with
  | nil => rfl
  | cons p ps ih => simp [addRanks, ih]

/-- `addRanks` assigns the consecutive ranks `i, i+1, …`. -/
theorem addRanks_map_rank : ∀ (i : Nat) (l : List SProfile),
    (addRanks i l).map (fun e => e.rank) = List.range' i l.length := by
  intro i l
  induction l generalizing i with
  | nil => rfl
  | cons p ps ih => simp [addRanks, List.range', ih]

/-- `addRanks` preserves any pairwise relation on the profiles. -/
theorem addRanks_pairwise (R : SProfile → SProfile → Prop) :
    ∀ (l : List SProfile), l.Pairwise R → ∀ (i : Nat),
    (addRanks i l).Pairwise (fun a b => R a.profile b.profile) := by
  intro l
  induction l with
  | nil => exact fun _ _ => List.Pairwise.nil
  | cons p ps ih =>
    intro h i
    rcases h with _ | ⟨hp, hps⟩
    refine List.Pairwise.cons ?_ (ih hps (i + 1))
    intro b hb
    have hbp : b.profile ∈ ps := by
      rw [← addRanks_map_profile (i + 1) ps]
      exact List.mem_map_of_mem (fun e => e.profile) hb
    exact hp b.profile hbp

/-! ### C4 -/

/-- C4: the leaderboard keeps exactly the profiles that have a follower
count (as a permutation of the filtered input), every retained entry has a
follower count, the output is ordered descending by follower count, ties
keep their relative input order (the filtered subsequence of any fixed key
is unchanged), and the assigned ranks are exactly the contiguous sequence
`1, …, N`. -/
theorem c4_leaderboard (data : List SProfile) :
    (∀ e ∈ get_leaderboard data, e.profile.follower_count.isSome = true) ∧
    List.Perm ((get_leaderboard data).map (fun e => e.profile))
      (data.filter (fun p => p.follower_count.isSome)) ∧
    (get_leaderboard data).Pairwise (fun a b => lbKey b.profile ≤ lbKey a.profile) ∧
    (∀ k : Int,
      ((get_leaderboard data).map (fun e => e.profile)).filter (fun q => lbKey q = k)
        = (data.filter (fun p => p.follower_count.isSome)).filter (fun q => lbKey q = k)) ∧
    (get_leaderboard data).map (fun e => e.rank)
      = List.range' 1 (get_leaderboard data).length := by
  have hmap : (get_leaderboard data).map (fun e => e.profile)
      = (data.filter (fun p => p.follower_count.isSome)).insertionSort lbRel := by
    rw [get_leaderboard]
    exact addRanks_map_profile 1 _
  refine ⟨?_, ?_, ?_, ?_, ?_⟩
  · intro e he
    have h1 : e.profile ∈ (get_leaderboard data).map (fun e => e.profile) :=
      List.mem_map_of_mem (fun e => e.profile) he
    rw [hmap, List.mem_insertionSort] at h1
    exact (List.mem_filter.mp h1).2
  · rw [hmap]
    exact List.perm_insertionSort lbRel _
  · rw [get_leaderboard]
    exact addRanks_pairwise lbRel _
      (List.sorted_insertionSort lbRel (data.filter (fun p => p.follower_count.isSome))) 1
  · intro k
    rw [hmap]
    exact filter_insertionSort lbRel (fun q => lbKey q = k)
      (fun a b ha hb => by
        have ha' := of_decide_eq_true ha
        have hb' := of_decide_eq_true hb
        show lbKey b ≤ lbKey a
        rw [ha', hb']) _
  · have hlen : (get_leaderboard data).length
        = ((data.filter (fun p => p.follower_count.isSome)).insertionSort lbRel).length := by
      rw [← hmap, List.length_map]
    rw [get_leaderboard] at hlen ⊢
    rw [addRanks_map_rank 1 _, hlen]

/-! ### Helper lemmas for the trend classifier -/

/-- Every aggregated trend point carries a positive follower value (the
aggregation keeps only `followers > 0`, api.py line 360). -/
theorem trendPoints_pos (now : Int) (profiles : List GProfile) :
    ∀ x ∈ trendPoints now profiles, 0 < x.2 := by
  intro x hx
  unfold trendPoints at hx
  simp only [List.mem_map, List.mem_filter, decide_eq_true_eq] at hx
  obtain ⟨h, ⟨_, hpred⟩, rfl⟩ := hx
  exact hpred.2

/-- Every `trend_data` entry has a strictly positive daily average: each
date in the aggregation has at least one contributing point, and all
contributing follower values are positive. -/
theorem trendData_average_pos (now : Int) (profiles : List GProfile) :
    ∀ d ∈ trendData now profiles, 0 < d.average_followers := by
  intro d hd
  unfold trendData at hd
  simp only [List.mem_map] at hd
  obtain ⟨date, hdate, rfl⟩ := hd
  unfold trendDates at hdate
  rw [List.mem_insertionSort, List.mem_dedup, List.mem_map] at hdate
  obtain ⟨pt, hpt, hfst⟩ := hdate
  have hg : pt ∈ (trendPoints now profiles).filter (fun x => x.1 = date) :=
    List.mem_filter.mpr ⟨hpt, by simp [hfst]⟩
  have hne : (trendPoints now profiles).filter (fun x => x.1 = date) ≠ [] :=
    List.ne_nil_of_mem hg
  have hcount : 0 < ((trendPoints now profiles).filter (fun x => x.1 = date)).length :=
    List.length_pos.mpr hne
  have htot : 0 < (((trendPoints now profiles).filter (fun x => x.1 = date)).map
      (fun x => x.2)).sum := by
    apply List.sum_pos
    · intro i hi
      simp only [List.mem_map] at hi
      obtain ⟨y, hy, rfl⟩ := hi
      exact trendPoints_pos now profiles y (List.mem_of_mem_filter hy)
    · simp [hne]
  simp only
  rw [if_pos hcount]
  exact div_pos (by exact_mod_cast htot) (by exact_mod_cast hcount)

/-- Characterisation of `trendDirection` on any trend list with positive
averages (as produced by `trendData`). -/
theorem trendDirection_spec (td : List TrendDay)
    (hpos : ∀ d ∈ td, 0 < d.average_followers) :
    (td.length < 7 → trendDirection td = "stable") ∧
    (14 ≤ td.length →
      ((trendDirection td = "increasing") ↔
        ((((td.drop (td.length - 14)).take 7).map (fun d => d.average_followers)).sum) / 7
          * (105 / 100)
          < (((td.drop (td.length - 7)).map (fun d => d.average_followers)).sum) / 7) ∧
      ((trendDirection td = "decreasing") ↔
        (((td.drop (td.length - 7)).map (fun d => d.average_followers)).sum) / 7
          < ((((td.drop (td.length - 14)).take 7).map (fun d => d.average_followers)).sum) / 7
            * (95 / 100)) ∧
      ((trendDirection td = "stable") ↔
        (¬ ((((td.drop (td.length - 14)).take 7).map (fun d => d.average_followers)).sum) / 7
            * (105 / 100)
            < (((td.drop (td.length - 7)).map (fun d => d.average_followers)).sum) / 7 ∧
         ¬ (((td.drop (td.length - 7)).map (fun d => d.average_followers)).sum) / 7
            < ((((td.drop (td.length - 14)).take 7).map (fun d => d.average_followers)).sum) / 7
              * (95 / 100)))) ∧
    (7 ≤ td.length → td.length < 14 → trendDirection td = "stable") := by
  by_cases h7 : 7 ≤ td.length
  · have hlast : (td.drop (td.length - 7)).length = 7 := by
      rw [List.length_drop]; omega
    have hrecent_pos :
        0 < (((td.drop (td.length - 7)).map (fun d => d.average_followers)).sum) / 7 := by
      apply div_pos _ (by norm_num)
      apply List.sum_pos
      · intro x hx
        simp only [List.mem_map] at hx
        obtain ⟨y, hy, rfl⟩ := hx
        exact hpos y (List.mem_of_mem_drop hy)
      · intro hcon
        have := congrArg List.length hcon
        rw [List.length_map, hlast] at this
        exact absurd this (by norm_num)
    by_cases h14 : 14 ≤ td.length
    · have hprev7 : ((td.drop (td.length - 14)).take 7).length = 7 := by
        rw [List.length_take, List.length_drop]; omega
      have hdir : trendDirection td =
          (if ((((td.drop (td.length - 14)).take 7).map (fun d => d.average_followers)).sum) / 7
              * (105 / 100)
              < (((td.drop (td.length - 7)).map (fun d => d.average_followers)).sum) / 7
           then "increasing"
           else if (((td.drop (td.length - 7)).map (fun d => d.average_followers)).sum) / 7
              < ((((td.drop (td.length - 14)).take 7).map (fun d => d.average_followers)).sum) / 7
                * (95 / 100)
           then "decreasing" else "stable") := by
        rw [trendDirection, if_pos h7, if_pos h14]
        have hne : ((td.drop (td.length - 14)).take 7).isEmpty = false := by
          rw [List.isEmpty_eq_false]
          intro hcon
          have := congrArg List.length hcon
          rw [hprev7] at this
          exact absurd this (by norm_num)
        dsimp only
        rw [hne, hprev7]
        norm_num
      rw [hdir]
      refine ⟨fun h => absurd h7 (by omega), fun _ => ?_, fun _ h => absurd h14 (by omega)⟩
      split_ifs with hc1 hc2
      · refine ⟨⟨fun _ => hc1, fun _ => rfl⟩, ⟨fun h => absurd h (by decide), fun h => ?_⟩,
          ⟨fun h => absurd h (by decide), fun h => absurd hc1 h.1⟩⟩
        exact absurd hc1 (not_lt.mpr (le_of_lt (by nlinarith [hrecent_pos])))
      · exact ⟨⟨fun h => absurd h (by decide), fun h => absurd h hc1⟩,
          ⟨fun _ => hc2, fun _ => rfl⟩,
          ⟨fun h => absurd h (by decide), fun h => absurd hc2 h.2⟩⟩
      · exact ⟨⟨fun h => absurd h (by decide), fun h => absurd h hc1⟩,
          ⟨fun h => absurd h (by decide), fun h => absurd h hc2⟩,
          ⟨fun _ => ⟨hc1, hc2⟩, fun _ => rfl⟩⟩
    · have hdir : trendDirection td = "stable" := by
        rw [trendDirection, if_pos h7, if_neg h14]
        dsimp only
        rw [if_pos (show ([] : List TrendDay).isEmpty = true from rfl)]
        rw [if_neg (by intro hcon; nlinarith [hrecent_pos]),
          if_neg (by intro hcon; nlinarith [hrecent_pos])]
      exact ⟨fun h => absurd h7 (by omega), fun h => absurd h h14, fun _ _ => hdir⟩
  · have hdir : trendDirection td = "stable" := by
      rw [trendDirection, if_neg h7]
    exact ⟨fun _ => hdir, fun h => absurd h7 (by omega), fun h _ => absurd h h7⟩

/-- C4 witness: the leaderboard theorem applied to a concrete input with a
follower-less profile, exercising the membership prong on the top-ranked
entry and the stability prong on key 5. -/
theorem c4_leaderboard_witness :
    (⟨1, ⟨"c", some 9, none, none, none, none, false⟩, "No bio available"⟩ :
        RankedItem).profile.follower_count.isSome = true ∧
    ((get_leaderboard [⟨"b", some 5, none, none, none, none, false⟩,
        ⟨"a", none, none, none, none, none, false⟩,
        ⟨"c", some 9, none, none, none, none, false⟩]).map
      (fun e => e.profile)).filter (fun q => lbKey q = 5)
      = ([⟨"b", some 5, none, none, none, none, false⟩,
          ⟨"a", none, none, none, none, none, false⟩,
          ⟨"c", some 9, none, none, none, none, false⟩].filter
            (fun p => p.follower_count.isSome)).filter (fun q => lbKey q = 5) :=
  ⟨(c4_leaderboard [⟨"b", some 5, none, none, none, none, false⟩,
      ⟨"a", none, none, none, none, none, false⟩,
      ⟨"c", some 9, none, none, none, none, false⟩]).1
      ⟨1, ⟨"c", some 9, none, none, none, none, false⟩, "No bio available"⟩ (by decide),
   (c4_leaderboard [⟨"b", some 5, none, none, none, none, false⟩,
      ⟨"a", none, none, none, none, none, false⟩,
      ⟨"c", some 9, none, none, none, none, false⟩]).2.2.2.1 5⟩

/-! ### C6 -/

/-- C6: the trend classifier yields `stable` whenever fewer than 7 trend
points exist, regardless of any point's magnitude; with at least 14 points
it yields `increasing` iff the mean of the most recent 7 daily averages
exceeds the mean of the preceding 7 times 1.05, `decreasing` iff it is
below that mean times 0.95, and `stable` otherwise; with 7 to 13 points the
preceding mean is taken equal to the recent mean and the result is
`stable`. -/
theorem c6_trend_classifier (now : Int) (profiles : List GProfile) :
    ((trendData now profiles).length < 7 →
      trendDirection (trendData now profiles) = "stable") ∧
    (14 ≤ (trendData now profiles).length →
      ((trendDirection (trendData now profiles) = "increasing") ↔
        ((((trendData now profiles).drop ((trendData now profiles).length - 14)).take 7).map
            (fun d => d.average_followers)).sum / 7 * (105 / 100)
          < (((trendData now profiles).drop ((trendData now profiles).length - 7)).map
              (fun d => d.average_followers)).sum / 7) ∧
      ((trendDirection (trendData now profiles) = "decreasing") ↔
        (((trendData now profiles).drop ((trendData now profiles).length - 7)).map
            (fun d => d.average_followers)).sum / 7
          < ((((trendData now profiles).drop ((trendData now profiles).length - 14)).take 7).map
              (fun d => d.average_followers)).sum / 7 * (95 / 100)) ∧
      ((trendDirection (trendData now profiles) = "stable") ↔
        (¬ ((((trendData now profiles).drop ((trendData now profiles).length - 14)).take 7).map
              (fun d => d.average_followers)).sum / 7 * (105 / 100)
            < (((trendData now profiles).drop ((trendData now profiles).length - 7)).map
              (fun d => d.average_followers)).sum / 7 ∧
         ¬ (((trendData now profiles).drop ((trendData now profiles).length - 7)).map
              (fun d => d.average_followers)).sum / 7
            < ((((trendData now profiles).drop ((trendData now profiles).length - 14)).take 7).map
                (fun d => d.average_followers)).sum / 7 * (95 / 100)))) ∧
    (7 ≤ (trendData now profiles).length → (trendData now profiles).length < 14 →
      trendDirection (trendData now profiles) = "stable") :=
  trendDirection_spec (trendData now profiles) (trendData_average_pos now profiles)

/-- C6 witness: with no profiles there are 0 trend points and the direction
is `stable`; with one profile contributing exactly 7 daily points the
7-to-13-point prong also gives `stable`. -/
theorem c6_trend_classifier_witness :
    trendDirection (trendData 0 []) = "stable" ∧
    trendDirection (trendData 518400
      [⟨"t", 100, [⟨0, 100⟩, ⟨86400, 100⟩, ⟨172800, 100⟩, ⟨259200, 100⟩,
        ⟨345600, 100⟩, ⟨432000, 100⟩, ⟨518400, 100⟩], none⟩]) = "stable" :=
  ⟨(c6_trend_classifier 0 []).1 (by decide),
   (c6_trend_classifier 518400
      [⟨"t", 100, [⟨0, 100⟩, ⟨86400, 100⟩, ⟨172800, 100⟩, ⟨259200, 100⟩,
        ⟨345600, 100⟩, ⟨432000, 100⟩, ⟨518400, 100⟩], none⟩]).2.2
      (by decide) (by decide)⟩

end Frontend
